import Mathlib

/-!
Shallow embedding of the autism screening application's deterministic
risk-scoring core and its small persistence helpers, translated from
`src/components/PredictionInterface.tsx` (the current scoring function
`calculatePrediction`), `src/utils/sessionStorage.ts` (`saveSession`)
and `src/utils/dataProcessing.ts` (`responseToNumber`,
`numberToResponse`).  JavaScript numbers are modelled as rationals and
the ambient wall clock (`new Date().toISOString()`) as an explicit
`now : String` argument.
-/

namespace AutismPredictor

/-- The five ordinal questionnaire categories
(`type QuestionnaireResponse` in `src/types/autism.ts`). -/
inductive QuestionnaireResponse where
  | never
  | rarely
  | sometimes
  | often
  | always
deriving DecidableEq

/-- Child gender as in `PredictionInput` (`'M' | 'F'`). -/
inductive Gender where
  | M
  | F
deriving DecidableEq

/-- The three-bucket risk classification (`'Low' | 'Medium' | 'High'`). -/
inductive RiskLevel where
  | Low
  | Medium
  | High
deriving DecidableEq

/-- `PredictionInput` from `src/types/autism.ts`: age, gender and the
ordered list of questionnaire responses. -/
structure PredictionInput where
  age : ℤ
  gender : Gender
  responses : List QuestionnaireResponse
deriving DecidableEq

/-- One entry of the score breakdown built by `calculatePrediction`:
`{ question, response, score }`. -/
structure BreakdownEntry where
  question : String
  response : QuestionnaireResponse
  score : ℕ
deriving DecidableEq

/-- `PredictionResult` from `src/types/autism.ts`, with the fields the
current `calculatePrediction` actually populates. -/
structure PredictionResult where
  prediction : ℕ
  confidence : ℚ
  riskLevel : RiskLevel
  recommendation : String
  riskPercentage : ℚ
  scoreBreakdown : List BreakdownEntry
  timestamp : String
deriving DecidableEq

/-- The two gender constructors are distinct (used to evaluate the
gender adjustment at concrete inputs). -/
@[simp]
theorem genderF_ne_M : ¬(Gender.F = Gender.M) := by
  intro h
  exact Gender.noConfusion h

/-- `responseToNumber` from `src/utils/dataProcessing.ts`:
the fixed map `never=0, rarely=1, sometimes=2, often=3, always=4`. -/
def responseToNumber : QuestionnaireResponse → ℕ
  | .never => 0
  | .rarely => 1
  | .sometimes => 2
  | .often => 3
  | .always => 4

/-- `QUESTIONNAIRE_ITEMS` from `src/types/autism.ts`. -/
def QUESTIONNAIRE_ITEMS : List String :=
  [ "Does your child make eye contact when you call their name?"
  , "Does your child show interest in other children or prefer to play alone?"
  , "Does your child use gestures like pointing or waving to communicate?"
  , "Does your child understand and follow simple instructions?"
  , "Does your child have difficulty with changes in routine or environment?"
  , "Does your child show repetitive behaviors or intense interests in specific topics?"
  , "Does your child have conversations or mainly speaks in single words?"
  , "Does your child respond appropriately to emotions of others?"
  , "Does your child have unusual sensory reactions (sounds, textures, lights)?"
  , "Does your child engage in pretend or imaginative play?" ]

/-- `totalScore` computed at the start of `calculatePrediction`:
the sum of the mapped response values. -/
def totalScore (inp : PredictionInput) : ℕ :=
  (inp.responses.map responseToNumber).sum

/-- The demographic part of `riskScore` before mixing: the age-band
adjustment (`age <= 3` gives 0.05, else `age >= 10` gives 0.03) plus
the gender adjustment (0.05 for male). -/
def demographicAdjustment (inp : PredictionInput) : ℚ :=
  (if inp.age ≤ 3 then (5 : ℚ) / 100
   else if 10 ≤ inp.age then (3 : ℚ) / 100 else 0)
  + (if inp.gender = Gender.M then (5 : ℚ) / 100 else 0)

/-- `normalizedScore = totalScore / 40`. -/
def normalizedScore (inp : PredictionInput) : ℚ :=
  (totalScore inp : ℚ) / 40

/-- `riskScore = normalizedScore * 0.85 + (riskScore * 0.15)` where the
inner `riskScore` is the demographic adjustment accumulated so far. -/
def baseRiskScore (inp : PredictionInput) : ℚ :=
  normalizedScore inp * (85 / 100) + demographicAdjustment inp * (15 / 100)

/-- The filter predicate `r === 'always' || r === 'often'`. -/
def isHighRisk : QuestionnaireResponse → Bool
  | .always => true
  | .often => true
  | _ => false

/-- The filter predicate `r === 'never' || r === 'rarely'`. -/
def isLowEngagement : QuestionnaireResponse → Bool
  | .never => true
  | .rarely => true
  | _ => false

/-- `highRiskResponses`: count of responses equal to `always` or `often`. -/
def highRiskResponses (inp : PredictionInput) : ℕ :=
  (inp.responses.filter isHighRisk).length

/-- `lowEngagementResponses`: count of responses equal to `never` or `rarely`. -/
def lowEngagementResponses (inp : PredictionInput) : ℕ :=
  (inp.responses.filter isLowEngagement).length

/-- The risk score after the two pattern bonuses
(`if (highRiskResponses >= 6) riskScore += 0.1;`
 `if (lowEngagementResponses >= 7) riskScore += 0.05;`)
but before clamping. -/
def rawRiskScore (inp : PredictionInput) : ℚ :=
  baseRiskScore inp
  + (if 6 ≤ highRiskResponses inp then (1 : ℚ) / 10 else 0)
  + (if 7 ≤ lowEngagementResponses inp then (1 : ℚ) / 20 else 0)

/-- `riskScore = Math.max(0, Math.min(1, riskScore))`. -/
def riskScore (inp : PredictionInput) : ℚ :=
  max 0 (min 1 (rawRiskScore inp))

/-- `riskPercentage = riskScore * 100`. -/
def riskPercentage (inp : PredictionInput) : ℚ :=
  riskScore inp * 100

/-- `const prediction = riskPercentage >= 50 ? 1 : 0`. -/
def predictionBit (inp : PredictionInput) : ℕ :=
  if 50 ≤ riskPercentage inp then 1 else 0

/-- The risk level branch of `calculatePrediction`. -/
def riskLevel (inp : PredictionInput) : RiskLevel :=
  if riskPercentage inp < 35 then RiskLevel.Low
  else if riskPercentage inp < 65 then RiskLevel.Medium
  else RiskLevel.High

/-- The confidence value chosen in the same branch, before clamping. -/
def rawConfidence (inp : PredictionInput) : ℚ :=
  if riskPercentage inp < 35 then (35 - riskPercentage inp) / 35
  else if riskPercentage inp < 65 then 7 / 10
  else (riskPercentage inp - 65) / 35

/-- `confidence = Math.min(0.95, Math.max(0.6, confidence))`. -/
def confidence (inp : PredictionInput) : ℚ :=
  min (95 / 100) (max (6 / 10) (rawConfidence inp))

/-- High-risk recommendation text. -/
def highRecommendation : String :=
  "We strongly recommend consulting with a pediatric developmental specialist or child psychologist for a comprehensive evaluation. Early screening and intervention can significantly improve outcomes."

/-- Medium-risk recommendation text. -/
def mediumRecommendation : String :=
  "While the assessment shows moderate indicators, we recommend discussing these observations with your pediatrician. Continue monitoring your child\x27s development closely."

/-- Low-risk recommendation text. -/
def lowRecommendation : String :=
  "The assessment suggests typical development patterns. Continue regular developmental check-ups with your pediatrician and implement the supportive strategies provided below."

/-- The recommendation branch of `calculatePrediction`. -/
def recommendation (inp : PredictionInput) : String :=
  if riskLevel inp = RiskLevel.High then highRecommendation
  else if riskLevel inp = RiskLevel.Medium then mediumRecommendation
  else lowRecommendation

/-- Default string standing for a JavaScript out-of-bounds read of
`QUESTIONNAIRE_ITEMS[index]` (never reached for a 10-response input). -/
def missingQuestion : String := ""

/-- Index-carrying helper for the breakdown construction
`responses.map((response, index) => ...)`. -/
def scoreBreakdownAux : ℕ → List QuestionnaireResponse → List BreakdownEntry
  | _, [] => []
  | i, r :: rs =>
      { question := QUESTIONNAIRE_ITEMS.getD i missingQuestion
      , response := r
      , score := responseToNumber r } :: scoreBreakdownAux (i + 1) rs

/-- `scoreBreakdown` from `calculatePrediction`: one entry per response,
in input order. -/
def scoreBreakdown (inp : PredictionInput) : List BreakdownEntry :=
  scoreBreakdownAux 0 inp.responses

/-- `calculatePrediction` from `src/components/PredictionInterface.tsx`,
with the wall clock passed explicitly as `now`. -/
def calculatePrediction (inp : PredictionInput) (now : String) : PredictionResult :=
  { prediction := predictionBit inp
  , confidence := confidence inp
  , riskLevel := riskLevel inp
  , recommendation := recommendation inp
  , riskPercentage := riskPercentage inp
  , scoreBreakdown := scoreBreakdown inp
  , timestamp := now }

/-- `SessionHistory` record from `src/types/autism.ts` as stored by
`src/utils/sessionStorage.ts`. -/
structure StoredSession where
  id : String
  timestamp : String
  age : ℤ
  gender : Gender
  result : PredictionResult
  totalScore : ℕ
deriving DecidableEq

/-- `saveSession` from `src/utils/sessionStorage.ts`: it unshifts the
new session onto the stored history and keeps only the first 10
entries (`history.unshift(session); history.slice(0, 10)`). -/
def saveSession (session : StoredSession) (history : List StoredSession) :
    List StoredSession :=
  (session :: history).take 10

/-- The ordered list of categories used by `numberToResponse`. -/
def responseCategories : List QuestionnaireResponse :=
  [ QuestionnaireResponse.never
  , QuestionnaireResponse.rarely
  , QuestionnaireResponse.sometimes
  , QuestionnaireResponse.often
  , QuestionnaireResponse.always ]

/-- JavaScript `Math.round`: round half toward positive infinity,
i.e. the floor of `q + 1/2`. -/
def jsRound (q : ℚ) : ℤ :=
  ⌊q + 1 / 2⌋

/-- The clamped index `Math.max(0, Math.min(4, Math.round(num)))`
computed by `numberToResponse`. -/
def clampedIndex (q : ℚ) : ℤ :=
  max 0 (min 4 (jsRound q))

/-- `numberToResponse` from `src/utils/dataProcessing.ts`:
`responses[Math.max(0, Math.min(4, Math.round(num)))]`. -/
def numberToResponse (num : ℚ) : QuestionnaireResponse :=
  responseCategories.getD (clampedIndex num).toNat QuestionnaireResponse.never

/-! ### Helper lemmas about the scoring pipeline -/

theorem riskScore_nonneg (inp : PredictionInput) : 0 ≤ riskScore inp :=
  le_max_left 0 _

theorem riskScore_le_one (inp : PredictionInput) : riskScore inp ≤ 1 :=
  max_le (by norm_num) (min_le_left _ _)

theorem riskPercentage_nonneg (inp : PredictionInput) : 0 ≤ riskPercentage inp := by
  rw [riskPercentage]
  exact mul_nonneg (riskScore_nonneg inp) (by norm_num)

theorem riskPercentage_le_100 (inp : PredictionInput) : riskPercentage inp ≤ 100 := by
  rw [riskPercentage]
  calc riskScore inp * 100 ≤ 1 * 100 :=
        mul_le_mul_of_nonneg_right (riskScore_le_one inp) (by norm_num)
    _ = 100 := by norm_num

theorem riskLevel_low_iff (inp : PredictionInput) :
    riskLevel inp = RiskLevel.Low ↔ riskPercentage inp < 35 := by
  rw [riskLevel]
  split_ifs with h1 h2
  · exact iff_of_true rfl h1
  · exact iff_of_false (by decide) h1
  · exact iff_of_false (by decide) h1

theorem riskLevel_medium_iff (inp : PredictionInput) :
    riskLevel inp = RiskLevel.Medium ↔
      35 ≤ riskPercentage inp ∧ riskPercentage inp < 65 := by
  rw [riskLevel]
  split_ifs with h1 h2
  · exact iff_of_false (by decide)
      (fun hc => absurd h1 (not_lt.mpr hc.1))
  · exact iff_of_true rfl ⟨not_lt.mp h1, h2⟩
  · exact iff_of_false (by decide)
      (fun hc => absurd hc.2 h2)

theorem riskLevel_high_iff (inp : PredictionInput) :
    riskLevel inp = RiskLevel.High ↔ 65 ≤ riskPercentage inp := by
  rw [riskLevel]
  split_ifs with h1 h2
  · exact iff_of_false (by decide)
      (fun hc => by linarith)
  · exact iff_of_false (by decide)
      (fun hc => by linarith)
  · exact iff_of_true rfl (not_lt.mp h2)

theorem predictionBit_one_iff (inp : PredictionInput) :
    predictionBit inp = 1 ↔ 50 ≤ riskPercentage inp := by
  rw [predictionBit]
  split_ifs with h
  · exact iff_of_true rfl h
  · exact iff_of_false (by norm_num) h

theorem predictionBit_zero_iff (inp : PredictionInput) :
    predictionBit inp = 0 ↔ riskPercentage inp < 50 := by
  rw [predictionBit]
  split_ifs with h
  · exact iff_of_false (by norm_num) (not_lt.mpr h)
  · exact iff_of_true rfl (not_le.mp h)

/-! ### Concrete inputs used by witnesses and counterexamples -/

/-- A valid input: age 5, male, all ten responses `sometimes`. -/
def sampleValid : PredictionInput :=
  { age := 5
  , gender := Gender.M
  , responses :=
      [ .sometimes, .sometimes, .sometimes, .sometimes, .sometimes
      , .sometimes, .sometimes, .sometimes, .sometimes, .sometimes ] }

/-- A fixed clock reading. -/
def sampleTime : String := "2024-01-01T00:00:00.000Z"

/-- A different clock reading, one second later. -/
def sampleTimeLater : String := "2024-01-01T00:00:01.000Z"

/-! ### Claim theorems -/

/-- C1: for every valid AssessmentInput (age in [2,14], exactly 10
recognized responses), riskPercentage lies in [0,100], and riskLevel is
Low iff riskPercentage < 35, Medium iff 35 ≤ riskPercentage < 65, and
High iff riskPercentage ≥ 65. -/
theorem c1_riskLevel_step_of_riskPercentage (inp : PredictionInput) (now : String)
    (hage1 : 2 ≤ inp.age) (hage2 : inp.age ≤ 14)
    (hlen : inp.responses.length = 10) :
    0 ≤ (calculatePrediction inp now).riskPercentage ∧
    (calculatePrediction inp now).riskPercentage ≤ 100 ∧
    ((calculatePrediction inp now).riskLevel = RiskLevel.Low ↔
      (calculatePrediction inp now).riskPercentage < 35) ∧
    ((calculatePrediction inp now).riskLevel = RiskLevel.Medium ↔
      35 ≤ (calculatePrediction inp now).riskPercentage ∧
        (calculatePrediction inp now).riskPercentage < 65) ∧
    ((calculatePrediction inp now).riskLevel = RiskLevel.High ↔
      65 ≤ (calculatePrediction inp now).riskPercentage) :=
  ⟨riskPercentage_nonneg inp, riskPercentage_le_100 inp,
   riskLevel_low_iff inp, riskLevel_medium_iff inp, riskLevel_high_iff inp⟩

/-- Witness for C1 at the concrete valid input `sampleValid`. -/
theorem c1_riskLevel_step_of_riskPercentage_witness :
    0 ≤ (calculatePrediction sampleValid sampleTime).riskPercentage ∧
    (calculatePrediction sampleValid sampleTime).riskPercentage ≤ 100 ∧
    ((calculatePrediction sampleValid sampleTime).riskLevel = RiskLevel.Low ↔
      (calculatePrediction sampleValid sampleTime).riskPercentage < 35) ∧
    ((calculatePrediction sampleValid sampleTime).riskLevel = RiskLevel.Medium ↔
      35 ≤ (calculatePrediction sampleValid sampleTime).riskPercentage ∧
        (calculatePrediction sampleValid sampleTime).riskPercentage < 65) ∧
    ((calculatePrediction sampleValid sampleTime).riskLevel = RiskLevel.High ↔
      65 ≤ (calculatePrediction sampleValid sampleTime).riskPercentage) :=
  c1_riskLevel_step_of_riskPercentage sampleValid sampleTime
    (by decide) (by decide) (by decide)

/-- C2: for every valid AssessmentInput, the confidence of the result
lies in [0.6, 0.95], whichever riskLevel is produced. -/
theorem c2_confidence_bounds (inp : PredictionInput) (now : String)
    (hage1 : 2 ≤ inp.age) (hage2 : inp.age ≤ 14)
    (hlen : inp.responses.length = 10) :
    (6 : ℚ) / 10 ≤ (calculatePrediction inp now).confidence ∧
    (calculatePrediction inp now).confidence ≤ 95 / 100 := by
  constructor
  · exact le_min (by norm_num) (le_max_left _ _)
  · exact min_le_left _ _

/-- Witness for C2 at the concrete valid input `sampleValid`. -/
theorem c2_confidence_bounds_witness :
    (6 : ℚ) / 10 ≤ (calculatePrediction sampleValid sampleTime).confidence ∧
    (calculatePrediction sampleValid sampleTime).confidence ≤ 95 / 100 :=
  c2_confidence_bounds sampleValid sampleTime (by decide) (by decide) (by decide)

/-- C3 counterexample: `calculatePrediction` stamps its result with the
current wall-clock time (`new Date().toISOString()`), so two invocations
with an identical `PredictionInput` made at different instants differ in
the `timestamp` field: the output is not bit-identical. -/
theorem c3_counterexample_timestamp :
    calculatePrediction sampleValid sampleTime ≠
      calculatePrediction sampleValid sampleTimeLater := by
  intro h
  have ht : sampleTime = sampleTimeLater := congrArg PredictionResult.timestamp h
  exact absurd ht (by decide)

/-- C3 (amended): the scoring computation is deterministic in the
input: two invocations with an identical `PredictionInput` agree on
every field except `timestamp`, which records the invocation time. -/
theorem c3_deterministic_except_timestamp (inp : PredictionInput) (t1 t2 : String) :
    (calculatePrediction inp t1).prediction = (calculatePrediction inp t2).prediction ∧
    (calculatePrediction inp t1).confidence = (calculatePrediction inp t2).confidence ∧
    (calculatePrediction inp t1).riskLevel = (calculatePrediction inp t2).riskLevel ∧
    (calculatePrediction inp t1).recommendation
      = (calculatePrediction inp t2).recommendation ∧
    (calculatePrediction inp t1).riskPercentage
      = (calculatePrediction inp t2).riskPercentage ∧
    (calculatePrediction inp t1).scoreBreakdown
      = (calculatePrediction inp t2).scoreBreakdown ∧
    (calculatePrediction inp t1).timestamp = t1 :=
  ⟨rfl, rfl, rfl, rfl, rfl, rfl, rfl⟩

/-- The breakdown scores sum to the same value as the mapped responses. -/
theorem scoreBreakdownAux_map_score_sum (k : ℕ) (rs : List QuestionnaireResponse) :
    ((scoreBreakdownAux k rs).map BreakdownEntry.score).sum
      = (rs.map responseToNumber).sum := by
  induction rs generalizing k with
  | nil => rfl
  | cons r rs ih => simp [scoreBreakdownAux, ih]

/-- Every mapped response value is at most 4. -/
theorem responseToNumber_le_four (r : QuestionnaireResponse) :
    responseToNumber r ≤ 4 := by
  cases r <;> simp [responseToNumber]

/-- C4: for every valid AssessmentInput, totalScore equals the sum of
the ten response values under the fixed map never=0, rarely=1,
sometimes=2, often=3, always=4, and lies in [0,40]; the breakdown
scores of the result sum to the same value. -/
theorem c4_totalScore_sum_and_bound (inp : PredictionInput) (now : String)
    (hlen : inp.responses.length = 10) :
    totalScore inp = (inp.responses.map responseToNumber).sum ∧
    responseToNumber QuestionnaireResponse.never = 0 ∧
    responseToNumber QuestionnaireResponse.rarely = 1 ∧
    responseToNumber QuestionnaireResponse.sometimes = 2 ∧
    responseToNumber QuestionnaireResponse.often = 3 ∧
    responseToNumber QuestionnaireResponse.always = 4 ∧
    totalScore inp ≤ 40 ∧
    (((calculatePrediction inp now).scoreBreakdown.map BreakdownEntry.score).sum
      = totalScore inp) := by
  refine ⟨rfl, rfl, rfl, rfl, rfl, rfl, ?_, ?_⟩
  · have hb : ∀ x ∈ inp.responses.map responseToNumber, x ≤ 4 := by
      intro x hx
      obtain ⟨r, _, hr⟩ := List.mem_map.mp hx
      exact hr ▸ responseToNumber_le_four r
    have hs := List.sum_le_card_nsmul (inp.responses.map responseToNumber) 4 hb
    rw [totalScore]
    calc (inp.responses.map responseToNumber).sum
        ≤ (inp.responses.map responseToNumber).length • 4 := hs
      _ = 40 := by rw [List.length_map, hlen]; rfl
  · exact scoreBreakdownAux_map_score_sum 0 inp.responses

/-- Witness for C4 at the concrete valid input `sampleValid`. -/
theorem c4_totalScore_sum_and_bound_witness :
    totalScore sampleValid = (sampleValid.responses.map responseToNumber).sum ∧
    responseToNumber QuestionnaireResponse.never = 0 ∧
    responseToNumber QuestionnaireResponse.rarely = 1 ∧
    responseToNumber QuestionnaireResponse.sometimes = 2 ∧
    responseToNumber QuestionnaireResponse.often = 3 ∧
    responseToNumber QuestionnaireResponse.always = 4 ∧
    totalScore sampleValid ≤ 40 ∧
    (((calculatePrediction sampleValid sampleTime).scoreBreakdown.map
        BreakdownEntry.score).sum = totalScore sampleValid) :=
  c4_totalScore_sum_and_bound sampleValid sampleTime (by decide)

/-- An invalid input: age 0 is outside [2,14] and there is only one
response instead of ten. -/
def invalidInput : PredictionInput :=
  { age := 0, gender := Gender.F, responses := [QuestionnaireResponse.always] }

/-- C5 counterexample: `calculatePrediction` contains no validation at
all, so on an input with the wrong response count and an out-of-range
age it does not fail: it returns an ordinary result (here with
riskPercentage 9.25 and riskLevel Low) instead of an InvalidInput
error. -/
theorem c5_counterexample_no_invalid_input_error :
    invalidInput.responses.length ≠ 10 ∧
    invalidInput.age < 2 ∧
    (calculatePrediction invalidInput sampleTime).riskPercentage = 37 / 4 ∧
    (calculatePrediction invalidInput sampleTime).riskLevel = RiskLevel.Low := by
  have hraw : rawRiskScore invalidInput = 37 / 400 := by
    norm_num [rawRiskScore, baseRiskScore, normalizedScore, demographicAdjustment,
      totalScore, highRiskResponses, lowEngagementResponses, responseToNumber,
      invalidInput, List.filter, isHighRisk, isLowEngagement]
  have hp : riskPercentage invalidInput = 37 / 4 := by
    rw [riskPercentage, riskScore, hraw, min_eq_right (by norm_num),
      max_eq_right (by norm_num)]
    norm_num
  refine ⟨by decide, by decide, hp, ?_⟩
  show riskLevel invalidInput = RiskLevel.Low
  rw [riskLevel, hp]
  norm_num

/-- C5 (amended): the scoring function performs no input validation and
has no error path: for every input, valid or not, it returns a result
with one breakdown entry per supplied response and a riskPercentage in
[0,100]. -/
theorem c5_no_validation_total (inp : PredictionInput) (now : String) :
    (calculatePrediction inp now).scoreBreakdown.length = inp.responses.length ∧
    0 ≤ (calculatePrediction inp now).riskPercentage ∧
    (calculatePrediction inp now).riskPercentage ≤ 100 := by
  refine ⟨?_, riskPercentage_nonneg inp, riskPercentage_le_100 inp⟩
  show (scoreBreakdownAux 0 inp.responses).length = inp.responses.length
  generalize 0 = k
  induction inp.responses generalizing k with
  | nil => rfl
  | cons r rs ih => simp [scoreBreakdownAux, ih]

/-- C6: for every valid AssessmentInput, the 0.1 bonus is added exactly
once when at least 6 responses are often/always, the 0.05 bonus exactly
once when at least 7 responses are never/rarely, and neither bonus is
added when its threshold is not met. -/
theorem c6_pattern_bonuses (inp : PredictionInput)
    (hage1 : 2 ≤ inp.age) (hage2 : inp.age ≤ 14)
    (hlen : inp.responses.length = 10) :
    (rawRiskScore inp = baseRiskScore inp
      + (if 6 ≤ highRiskResponses inp then (1 : ℚ) / 10 else 0)
      + (if 7 ≤ lowEngagementResponses inp then (1 : ℚ) / 20 else 0)) ∧
    (6 ≤ highRiskResponses inp → 7 ≤ lowEngagementResponses inp →
      rawRiskScore inp = baseRiskScore inp + 1 / 10 + 1 / 20) ∧
    (6 ≤ highRiskResponses inp → lowEngagementResponses inp < 7 →
      rawRiskScore inp = baseRiskScore inp + 1 / 10) ∧
    (highRiskResponses inp < 6 → 7 ≤ lowEngagementResponses inp →
      rawRiskScore inp = baseRiskScore inp + 1 / 20) ∧
    (highRiskResponses inp < 6 → lowEngagementResponses inp < 7 →
      rawRiskScore inp = baseRiskScore inp) := by
  refine ⟨rfl, ?_, ?_, ?_, ?_⟩
  · intro h1 h2
    rw [rawRiskScore, if_pos h1, if_pos h2]
  · intro h1 h2
    rw [rawRiskScore, if_pos h1, if_neg (not_le.mpr h2)]
    ring
  · intro h1 h2
    rw [rawRiskScore, if_neg (not_le.mpr h1), if_pos h2]
    ring
  · intro h1 h2
    rw [rawRiskScore, if_neg (not_le.mpr h1), if_neg (not_le.mpr h2)]
    ring

/-- The spec's worked example for the bonus: six `often` plus four
`never` responses at age 8. -/
def bonusExampleInput : PredictionInput :=
  { age := 8
  , gender := Gender.M
  , responses :=
      [ .often, .often, .often, .often, .often, .often
      , .never, .never, .never, .never ] }

/-- Witness for C6: on the spec's example input `highRiskResponses`
is exactly 6, so the 0.1 bonus is applied exactly once, and the
low-engagement bonus is not applied (only 4 such responses). -/
theorem c6_pattern_bonuses_witness :
    highRiskResponses bonusExampleInput = 6 ∧
    lowEngagementResponses bonusExampleInput = 4 ∧
    rawRiskScore bonusExampleInput = baseRiskScore bonusExampleInput + 1 / 10 :=
  ⟨by decide, by decide,
    (c6_pattern_bonuses bonusExampleInput (by decide) (by decide)
      (by decide)).2.2.1 (by decide) (by decide)⟩

/-- Default entry standing for a JavaScript out-of-bounds read of the
breakdown array (never reached at in-range indices). -/
def defaultEntry : BreakdownEntry :=
  { question := missingQuestion
  , response := QuestionnaireResponse.never
  , score := 0 }

/-- Entry `i` of the breakdown built from start index `k` pairs response
`i` with question `k + i` and its mapped score. -/
theorem scoreBreakdownAux_getD (rs : List QuestionnaireResponse) (k i : ℕ)
    (hi : i < rs.length) :
    (scoreBreakdownAux k rs).getD i defaultEntry =
      { question := QUESTIONNAIRE_ITEMS.getD (k + i) missingQuestion
      , response := rs.getD i QuestionnaireResponse.never
      , score := responseToNumber (rs.getD i QuestionnaireResponse.never) } := by
  induction rs generalizing k i with
  | nil => exact absurd hi (by simp)
  | cons r rs ih =>
      cases i with
      | zero => simp [scoreBreakdownAux]
      | succ j =>
          have hj : j < rs.length := by
            simpa using Nat.lt_of_succ_lt_succ hi
          have hrec := ih (k + 1) j hj
          simp only [scoreBreakdownAux, List.getD_cons_succ, hrec]
          have harith : k + 1 + j = k + (j + 1) := by omega
          rw [harith]

/-- The breakdown has one entry per response. -/
theorem scoreBreakdownAux_length (rs : List QuestionnaireResponse) (k : ℕ) :
    (scoreBreakdownAux k rs).length = rs.length := by
  induction rs generalizing k with
  | nil => rfl
  | cons r rs ih => simp [scoreBreakdownAux, ih]

/-- C7: for every valid AssessmentInput the score breakdown has exactly
10 entries; its i-th entry carries the i-th question, the i-th response
in input order, and the fixed integer mapping of that response. -/
theorem c7_scoreBreakdown_entries (inp : PredictionInput) (now : String) (i : ℕ)
    (hlen : inp.responses.length = 10) (hi : i < 10) :
    (calculatePrediction inp now).scoreBreakdown.length = 10 ∧
    ((calculatePrediction inp now).scoreBreakdown.getD i defaultEntry).question
      = QUESTIONNAIRE_ITEMS.getD i missingQuestion ∧
    ((calculatePrediction inp now).scoreBreakdown.getD i defaultEntry).response
      = inp.responses.getD i QuestionnaireResponse.never ∧
    ((calculatePrediction inp now).scoreBreakdown.getD i defaultEntry).score
      = responseToNumber (inp.responses.getD i QuestionnaireResponse.never) := by
  have hi' : i < inp.responses.length := by rw [hlen]; exact hi
  have hgd := scoreBreakdownAux_getD inp.responses 0 i hi'
  have hlength : (scoreBreakdownAux 0 inp.responses).length = inp.responses.length :=
    scoreBreakdownAux_length inp.responses 0
  refine ⟨?_, ?_, ?_, ?_⟩
  · show (scoreBreakdownAux 0 inp.responses).length = 10
    rw [hlength, hlen]
  · show ((scoreBreakdownAux 0 inp.responses).getD i defaultEntry).question = _
    rw [hgd]
    simp
  · show ((scoreBreakdownAux 0 inp.responses).getD i defaultEntry).response = _
    rw [hgd]
  · show ((scoreBreakdownAux 0 inp.responses).getD i defaultEntry).score = _
    rw [hgd]

/-- A valid input with all five categories appearing. -/
def mixedInput : PredictionInput :=
  { age := 7
  , gender := Gender.M
  , responses :=
      [ .never, .rarely, .sometimes, .often, .always
      , .never, .rarely, .sometimes, .often, .always ] }

/-- Witness for C7 at index 3 of the concrete input `mixedInput`. -/
theorem c7_scoreBreakdown_entries_witness :
    (calculatePrediction mixedInput sampleTime).scoreBreakdown.length = 10 ∧
    ((calculatePrediction mixedInput sampleTime).scoreBreakdown.getD 3
        defaultEntry).question = QUESTIONNAIRE_ITEMS.getD 3 missingQuestion ∧
    ((calculatePrediction mixedInput sampleTime).scoreBreakdown.getD 3
        defaultEntry).response
      = mixedInput.responses.getD 3 QuestionnaireResponse.never ∧
    ((calculatePrediction mixedInput sampleTime).scoreBreakdown.getD 3
        defaultEntry).score
      = responseToNumber (mixedInput.responses.getD 3 QuestionnaireResponse.never) :=
  c7_scoreBreakdown_entries mixedInput sampleTime 3 (by decide) (by decide)

/-- C8: `saveSession` places the new session at the front, keeps the
surviving older sessions in their previous relative order (the first 9
of them, a sublist of the prior history), and never stores more than 10
entries. -/
theorem c8_saveSession_cap_and_order (s : StoredSession) (h : List StoredSession) :
    saveSession s h = s :: h.take 9 ∧
    (saveSession s h).length ≤ 10 ∧
    List.Sublist (h.take 9) h :=
  ⟨rfl, by rw [saveSession]; exact List.length_take_le 10 _,
    List.take_sublist 9 h⟩

/-- JavaScript `Math.round` is the identity on whole numbers. -/
theorem jsRound_natCast (n : ℕ) : jsRound (n : ℚ) = n := by
  rw [jsRound]
  have hc : ((n : ℚ) + 1 / 2) = ((n : ℤ) : ℚ) + 1 / 2 := by push_cast; ring
  rw [hc, Int.floor_int_add]
  have h0 : ⌊(1 / 2 : ℚ)⌋ = 0 := by
    rw [Int.floor_eq_iff]
    constructor
    · norm_num
    · norm_num
  rw [h0, add_zero]

/-- C9: the response/number mappings round-trip on all five categories,
and `numberToResponse` is total: its clamped index always lies in
[0,4], so it always returns one of the five categories. -/
theorem c9_mapping_round_trip_and_total :
    (∀ r : QuestionnaireResponse,
      numberToResponse ((responseToNumber r : ℚ)) = r) ∧
    (∀ q : ℚ, 0 ≤ clampedIndex q ∧ clampedIndex q ≤ 4 ∧
      numberToResponse q ∈ responseCategories) := by
  constructor
  · intro r
    rw [numberToResponse, clampedIndex, jsRound_natCast]
    cases r <;> decide
  · intro q
    have h1 : (0 : ℤ) ≤ clampedIndex q := le_max_left _ _
    have h2 : clampedIndex q ≤ 4 := max_le (by norm_num) (min_le_left _ _)
    refine ⟨h1, h2, ?_⟩
    have h5 : (clampedIndex q).toNat = 0 ∨ (clampedIndex q).toNat = 1 ∨
        (clampedIndex q).toNat = 2 ∨ (clampedIndex q).toNat = 3 ∨
        (clampedIndex q).toNat = 4 := by omega
    rw [numberToResponse]
    rcases h5 with h | h | h | h | h <;> rw [h] <;> decide

/-- C10: the binary prediction equals 1 iff riskPercentage ≥ 50 and 0
otherwise; hence a Low risk level forces prediction 0 and a High risk
level forces prediction 1. -/
theorem c10_prediction_threshold (inp : PredictionInput) (now : String)
    (hage1 : 2 ≤ inp.age) (hage2 : inp.age ≤ 14)
    (hlen : inp.responses.length = 10) :
    ((calculatePrediction inp now).prediction = 1 ↔
      50 ≤ (calculatePrediction inp now).riskPercentage) ∧
    ((calculatePrediction inp now).prediction = 0 ↔
      (calculatePrediction inp now).riskPercentage < 50) ∧
    ((calculatePrediction inp now).riskLevel = RiskLevel.Low →
      (calculatePrediction inp now).prediction = 0) ∧
    ((calculatePrediction inp now).riskLevel = RiskLevel.High →
      (calculatePrediction inp now).prediction = 1) := by
  refine ⟨predictionBit_one_iff inp, predictionBit_zero_iff inp, ?_, ?_⟩
  · intro hl
    have hp : riskPercentage inp < 35 := (riskLevel_low_iff inp).mp hl
    exact (predictionBit_zero_iff inp).mpr (by linarith)
  · intro hl
    have hp : 65 ≤ riskPercentage inp := (riskLevel_high_iff inp).mp hl
    exact (predictionBit_one_iff inp).mpr (by linarith)

/-- Witness for C10 at the concrete valid input `sampleValid`. -/
theorem c10_prediction_threshold_witness :
    ((calculatePrediction sampleValid sampleTime).prediction = 1 ↔
      50 ≤ (calculatePrediction sampleValid sampleTime).riskPercentage) ∧
    ((calculatePrediction sampleValid sampleTime).prediction = 0 ↔
      (calculatePrediction sampleValid sampleTime).riskPercentage < 50) ∧
    ((calculatePrediction sampleValid sampleTime).riskLevel = RiskLevel.Low →
      (calculatePrediction sampleValid sampleTime).prediction = 0) ∧
    ((calculatePrediction sampleValid sampleTime).riskLevel = RiskLevel.High →
      (calculatePrediction sampleValid sampleTime).prediction = 1) :=
  c10_prediction_threshold sampleValid sampleTime (by decide) (by decide) (by decide)

end AutismPredictor
